import Mathlib

/-!
Verification of the cra-ai-tools scoring and classification pipeline.

This file gives a shallow embedding, in Lean 4, of the core numeric and
structural logic of the repository:

* the relationship classifier and cluster builder of
  `apps/api/src/simitrack/simitrack.module.ts` (`ContentSimilarityService`),
* the cosine similarity of `apps/api/src/simitrack/services/embedding.service.ts`,
* the score blending of `apps/api/src/llm-evaluator/services/scoring.service.ts`
  (`ScoringService.evaluate`), the heuristics aggregator (`HeuristicsService.run`)
  and the LLM response validation (`LlmService.parseEvaluation`),
* the text metrics of `apps/api/src/llm-evaluator/utils/text-analysis.util.ts`,
* the Content Clarity and Semantic HTML analyzers.

JavaScript numbers are modelled by exact rationals (`ℚ`); `Math.round` is
modelled by `jsRound` (round half toward positive infinity, the JS semantics);
integer-valued scores are `ℤ`.  Strings interpolating formatted numbers are
rendered with `toString` of the exact rational (the decimal formatting of JS is
not modelled; no claim depends on it).  `Map`/`Set` objects, which iterate in
insertion order in JS, are modelled by association lists / duplicate-free lists
kept in insertion order.
-/

namespace CraAiTools

/-! ### JavaScript numeric primitives -/

/-- JS `Math.round`: rounds half toward positive infinity. -/
def jsRound (q : ℚ) : ℤ := ⌊q + 1/2⌋

/-- The source expression `Math.max(0, Math.min(100, Math.round(value)))`, the clamp used by
`LlmService.clamp` and by the analyzers. -/
def jsClamp (q : ℚ) : ℤ := max 0 (min 100 (jsRound q))

/-- Clamp an already-integral score into `[0,100]` (the analyzers' final
`clamp(n)` helper). -/
def clampInt (n : ℤ) : ℤ := max 0 (min 100 n)

/-! ### SimiTrack: similarity scores and the relationship classifier
(`ContentSimilarityService.classifyRelationships`) -/

/-- One row of the pairwise similarity matrix (`SimilarityScore` of
`shared-types`): the four per-facet cosine similarities for one unordered
pair of URLs. -/
structure SimilarityScore where
  url_a : String
  url_b : String
  title_similarity : ℚ
  intro_similarity : ℚ
  body_similarity : ℚ
  full_similarity : ℚ

/-- The six fixed relationship categories (`SimilarityClassification`). -/
inductive SimilarityClassification where
  | definiteDuplicate
  | nearDuplicate
  | intentCollision
  | potentialCannibalization
  | templateOverlap
  | unique
deriving DecidableEq

/-- The source expression `THRESHOLDS.definiteDuplicate.body` -/
def thresholdDefiniteDuplicateBody : ℚ := 0.78
/-- The source expression `THRESHOLDS.definiteDuplicate.title` -/
def thresholdDefiniteDuplicateTitle : ℚ := 0.75
/-- The source expression `THRESHOLDS.nearDuplicate.body` -/
def thresholdNearDuplicateBody : ℚ := 0.70
/-- The source expression `THRESHOLDS.nearDuplicate.intro` -/
def thresholdNearDuplicateIntro : ℚ := 0.65
/-- The source expression `THRESHOLDS.intentCollision.title` -/
def thresholdIntentCollisionTitle : ℚ := 0.70
/-- The source expression `THRESHOLDS.intentCollision.bodyMax` -/
def thresholdIntentCollisionBodyMax : ℚ := 0.60
/-- The source expression `THRESHOLDS.potentialCannibalization.title` -/
def thresholdPotCannibTitle : ℚ := 0.60
/-- The source expression `THRESHOLDS.potentialCannibalization.bodyMin` -/
def thresholdPotCannibBodyMin : ℚ := 0.45
/-- The source expression `THRESHOLDS.potentialCannibalization.bodyMax` -/
def thresholdPotCannibBodyMax : ℚ := 0.65
/-- The source expression `THRESHOLDS.templateOverlap.full` -/
def thresholdTemplateOverlapFull : ℚ := 0.75
/-- The source expression `THRESHOLDS.templateOverlap.bodyMax` -/
def thresholdTemplateOverlapBodyMax : ℚ := 0.55

/-- The `similarity_summary` of a `ContentRelationship`: the four similarities
rounded to two decimals (`Math.round(x * 100) / 100`). -/
structure SimilaritySummary where
  title : ℚ
  intro : ℚ
  body : ℚ
  full : ℚ
deriving DecidableEq

/-- The source expression `Math.round(x * 100) / 100` -/
def roundTwoDecimals (q : ℚ) : ℚ := (jsRound (q * 100) : ℚ) / 100

/-- The rounded summary built in the `return` of `classifyRelationships`. -/
def roundedSummary (s : SimilarityScore) : SimilaritySummary :=
  { title := roundTwoDecimals s.title_similarity
    intro := roundTwoDecimals s.intro_similarity
    body := roundTwoDecimals s.body_similarity
    full := roundTwoDecimals s.full_similarity }

/-- A classified pair (`ContentRelationship` of `shared-types`).  The
free-text `reasoning` string, which interpolates `toFixed(1)` percentages,
is not modelled; every other field is. -/
structure ContentRelationship where
  url_a : String
  url_b : String
  classification : SimilarityClassification
  confidence : ℤ
  similarity_summary : SimilaritySummary
  recommended_action : String
deriving DecidableEq

/-- The body of `classifyRelationships`'s `map` callback: the ordered
threshold rule chain (first match wins) assigning a classification,
confidence, and recommended action to one similarity row. -/
def classifyOne (s : SimilarityScore) : ContentRelationship :=
  if thresholdDefiniteDuplicateBody ≤ s.body_similarity ∧
      thresholdDefiniteDuplicateTitle ≤ s.title_similarity then
    { url_a := s.url_a, url_b := s.url_b
      classification := .definiteDuplicate
      confidence := jsRound ((s.body_similarity + s.title_similarity) / 2 * 100)
      similarity_summary := roundedSummary s
      recommended_action := "Canonicalize, redirect, or remove one URL" }
  else if thresholdNearDuplicateBody ≤ s.body_similarity ∧
      thresholdNearDuplicateIntro ≤ s.intro_similarity then
    { url_a := s.url_a, url_b := s.url_b
      classification := .nearDuplicate
      confidence := jsRound ((s.body_similarity + s.intro_similarity) / 2 * 100)
      similarity_summary := roundedSummary s
      recommended_action := "Merge content or rewrite to differentiate" }
  else if thresholdIntentCollisionTitle ≤ s.title_similarity ∧
      s.body_similarity < thresholdIntentCollisionBodyMax then
    { url_a := s.url_a, url_b := s.url_b
      classification := .intentCollision
      confidence := jsRound (s.title_similarity * 100)
      similarity_summary := roundedSummary s
      recommended_action := "Clarify intent and differentiate focus" }
  else if thresholdPotCannibTitle ≤ s.title_similarity ∧
      thresholdPotCannibBodyMin ≤ s.body_similarity ∧
      s.body_similarity < thresholdPotCannibBodyMax then
    { url_a := s.url_a, url_b := s.url_b
      classification := .potentialCannibalization
      confidence := jsRound ((s.title_similarity + s.body_similarity) / 2 * 100)
      similarity_summary := roundedSummary s
      recommended_action :=
        "Review for keyword cannibalization - consider consolidating or differentiating" }
  else if thresholdTemplateOverlapFull ≤ s.full_similarity ∧
      s.body_similarity < thresholdTemplateOverlapBodyMax then
    { url_a := s.url_a, url_b := s.url_b
      classification := .templateOverlap
      confidence := jsRound (s.full_similarity * 100)
      similarity_summary := roundedSummary s
      recommended_action := "Reduce boilerplate dominance" }
  else
    { url_a := s.url_a, url_b := s.url_b
      classification := .unique
      confidence := jsRound ((1 - s.full_similarity) * 100)
      similarity_summary := roundedSummary s
      recommended_action := "No action needed" }

/-- The source expression `ContentSimilarityService.classifyRelationships`. -/
def classifyRelationships (scores : List SimilarityScore) : List ContentRelationship :=
  scores.map classifyOne

/-- The spec's ordered rule chain (section 4.7), written as a literal list of
(guard, category) pairs, evaluated top-to-bottom with first match winning and
`Unique` as the fallthrough.  Written from the spec's words, to be compared
with `classifyOne`. -/
def specRuleChain : List ((SimilarityScore → Bool) × SimilarityClassification) :=
  [ (fun s => decide (0.78 ≤ s.body_similarity) && decide (0.75 ≤ s.title_similarity),
      .definiteDuplicate)
  , (fun s => decide (0.70 ≤ s.body_similarity) && decide (0.65 ≤ s.intro_similarity),
      .nearDuplicate)
  , (fun s => decide (0.70 ≤ s.title_similarity) && decide (s.body_similarity < 0.60),
      .intentCollision)
  , (fun s => decide (0.60 ≤ s.title_similarity) && decide (0.45 ≤ s.body_similarity)
        && decide (s.body_similarity < 0.65),
      .potentialCannibalization)
  , (fun s => decide (0.75 ≤ s.full_similarity) && decide (s.body_similarity < 0.55),
      .templateOverlap) ]

/-- First-match evaluation of an ordered rule chain; falls through to
`Unique`. -/
def firstMatchRule :
    List ((SimilarityScore → Bool) × SimilarityClassification) → SimilarityScore →
      SimilarityClassification
  | [], _ => .unique
  | (p, c) :: rest, s => if p s then c else firstMatchRule rest s

/-- The membership of all four similarities of a row in the unit interval
(the spec's stated invariant on `SimilarityScore`). -/
def simsInUnitInterval (s : SimilarityScore) : Prop :=
  0 ≤ s.title_similarity ∧ s.title_similarity ≤ 1 ∧
  0 ≤ s.intro_similarity ∧ s.intro_similarity ≤ 1 ∧
  0 ≤ s.body_similarity ∧ s.body_similarity ≤ 1 ∧
  0 ≤ s.full_similarity ∧ s.full_similarity ≤ 1

instance (s : SimilarityScore) : Decidable (simsInUnitInterval s) := by
  unfold simsInUnitInterval; infer_instance

/-- The mathematical range of cosine similarity, `[-1, 1]`, under which the
claim asserts the confidence bound. -/
def simsInCosineRange (s : SimilarityScore) : Prop :=
  -1 ≤ s.title_similarity ∧ s.title_similarity ≤ 1 ∧
  -1 ≤ s.intro_similarity ∧ s.intro_similarity ≤ 1 ∧
  -1 ≤ s.body_similarity ∧ s.body_similarity ≤ 1 ∧
  -1 ≤ s.full_similarity ∧ s.full_similarity ≤ 1

instance (s : SimilarityScore) : Decidable (simsInCosineRange s) := by
  unfold simsInCosineRange; infer_instance

/-! ### SimiTrack: the cluster builder
(`ContentSimilarityService.identifyIntentClusters`) -/

/-- The source expression `IntentCluster` of `shared-types`. -/
structure IntentCluster where
  primary_url : String
  cluster_urls : List String
  reasoning : String
deriving DecidableEq

/-- Reads a key of the `urlConnections` map (`Map.get`, `[]` when absent). -/
def lookupAdj (adj : List (String × List String)) (k : String) : List String :=
  match adj.find? (fun p => p.1 = k) with
  | some p => p.2
  | none => []

/-- The source expression `if (!urlConnections.has(k)) urlConnections.set(k, new Set())`:
appends a fresh empty entry, preserving insertion order. -/
def ensureKey (adj : List (String × List String)) (k : String) :
    List (String × List String) :=
  if adj.any (fun p => p.1 = k) then adj else adj ++ [(k, [])]

/-- The source expression `urlConnections.get(k)!.add(v)`: JS `Set.add`, which appends `v` when
absent and is a no-op on duplicates. -/
def addNeighbor (adj : List (String × List String)) (k v : String) :
    List (String × List String) :=
  adj.map fun p => if p.1 = k then (p.1, if v ∈ p.2 then p.2 else p.2 ++ [v]) else p

/-- The adjacency-building loop over the Intent Collision relationships. -/
def buildConnections (collisions : List ContentRelationship) :
    List (String × List String) :=
  collisions.foldl
    (fun m r =>
      let m1 := ensureKey m r.url_a
      let m2 := ensureKey m1 r.url_b
      let m3 := addNeighbor m2 r.url_a r.url_b
      addNeighbor m3 r.url_b r.url_a)
    []

/-- An upper bound on the number of iterations of one BFS `while` loop: one
initial queue element plus one push per stored edge endpoint.  Used as fuel
for `bfsVisit`. -/
def bfsFuel (adj : List (String × List String)) : ℕ :=
  1 + adj.length + (adj.map (fun p => p.2.length)).sum

/-- The BFS `while (queue.length > 0)` loop of `identifyIntentClusters`:
arguments are the remaining fuel, the queue, the visited set (insertion
order), and the cluster built so far; returns the final visited set and the
cluster. -/
def bfsVisit (adj : List (String × List String)) :
    ℕ → List String → List String → List String → List String × List String
  | 0, _, visited, cluster => (visited, cluster)
  | _ + 1, [], visited, cluster => (visited, cluster)
  | fuel + 1, current :: queue, visited, cluster =>
    if current ∈ visited then
      bfsVisit adj fuel queue visited cluster
    else
      let visited2 := visited ++ [current]
      let cluster2 := cluster ++ [current]
      let pushes := (lookupAdj adj current).filter (fun c => ¬ c ∈ visited2)
      bfsVisit adj fuel (queue ++ pushes) visited2 cluster2

/-- The cluster record pushed for one BFS component: `primary_url` is
`cluster[0]`, `cluster_urls` is `cluster.slice(1)`. -/
def mkIntentCluster (cluster : List String) : IntentCluster :=
  { primary_url := cluster.headD ""
    cluster_urls := cluster.drop 1
    reasoning := toString cluster.length ++
      " URLs are competing for similar search intent. Consider consolidating or differentiating." }

/-- The outer `for (const url of urlConnections.keys())` loop: runs one BFS
from each not-yet-visited key and keeps the components of size at least 2. -/
def collectClusters (adj : List (String × List String)) :
    List String → List String → List IntentCluster
  | [], _ => []
  | k :: keys, visited =>
    if k ∈ visited then collectClusters adj keys visited
    else
      let out := bfsVisit adj (bfsFuel adj) [k] visited []
      let rest := collectClusters adj keys out.1
      if out.2.length > 1 then mkIntentCluster out.2 :: rest
      else rest

/-- The members of a cluster: its primary URL together with the remaining
cluster URLs. -/
def clusterMembers (c : IntentCluster) : List String :=
  c.primary_url :: c.cluster_urls

/-- The source expression `ContentSimilarityService.identifyIntentClusters`. -/
def identifyIntentClusters (relationships : List ContentRelationship) :
    List IntentCluster :=
  let collisions := relationships.filter
    (fun r => r.classification = SimilarityClassification.intentCollision)
  if collisions.isEmpty then []
  else
    let adj := buildConnections collisions
    collectClusters adj (adj.map (fun p => p.1)) []

/-! ### LLM judge response validation (`LlmService.parseEvaluation`)

`JSON.parse` output is modelled by the `Json` inductive below; the
string-level fence stripping and parse are the external `JSON.parse`
collaborator, whose outcome (`none` for a parse error, and `Json.null` for
the literal `null`, on which JS property access throws inside the same
`try`/`catch`) is the input of `parseEvaluation`. -/

/-- A parsed JSON value. -/
inductive Json where
  | null
  | bool (b : Bool)
  | num (q : ℚ)
  | str (s : String)
  | arr (elems : List Json)
  | obj (fields : List (String × Json))

/-- JS property read `j[k]` on a parsed JSON value: a key lookup on objects,
`undefined` (here `none`) on every non-object. -/
def jsGetField : Json → String → Option Json
  | .obj fields, k => (fields.find? (fun p => p.1 = k)).map (fun p => p.2)
  | _, _ => none

/-- JS falsiness of a parsed JSON value (`null`, `false`, `0`, `""`). -/
def jsFalsy : Json → Bool
  | .null => true
  | .bool b => !b
  | .num q => decide (q = 0)
  | .str s => decide (s = "")
  | _ => false

/-- The per-dimension check of `parseEvaluation`:
`!parsed[dim] || typeof parsed[dim].score !== 'number'` rejects (`none`);
otherwise the numeric score is returned. -/
def jsDimScore (j : Json) (dim : String) : Option ℚ :=
  match jsGetField j dim with
  | none => none
  | some v =>
    if jsFalsy v then none
    else
      match jsGetField v "score" with
      | some (.num q) => some q
      | _ => none

/-- The source expression `typeof parsed[k] !== 'number'` rejection: the numeric value of a field,
when it is a number. -/
def jsNumField (j : Json) (k : String) : Option ℚ :=
  match jsGetField j k with
  | some (.num q) => some q
  | _ => none

/-- The source expression `Array.isArray(parsed[k]) ? parsed[k] : []`. -/
def jsArrField (j : Json) (k : String) : List Json :=
  match jsGetField j k with
  | some (.arr xs) => xs
  | _ => []

/-- A validated per-model judgment (`LLMEvaluation` of `shared-types`).
Dimension objects are passed through with their `score` clamped; only the
clamped scores are modelled (the untouched `notes` passthrough is not). -/
structure LLMEvaluation where
  extractability : ℤ
  citation_worthiness : ℤ
  query_relevance : ℤ
  structure_quality : ℤ
  authority_signals : ℤ
  overall_score : ℤ
  improvements : List Json
  examples : List Json

/-- The five required dimension names, in the order the code checks them. -/
def requiredDimensions : List String :=
  ["extractability", "citation_worthiness", "query_relevance",
   "structure_quality", "authority_signals"]

/-- Whether the parsed value is the JSON literal `null` (on which the JS
property access `parsed[dim]` throws a `TypeError`, converted to a `null`
return by the surrounding `try`/`catch`). -/
def jsIsNull : Json → Bool
  | .null => true
  | _ => false

/-- The field validation of `parseEvaluation`: checks the five dimensions in
order, then `overall_score`, and assembles the clamped evaluation. -/
def validateEvaluationJson (j : Json) : Option LLMEvaluation :=
  match jsDimScore j "extractability", jsDimScore j "citation_worthiness",
      jsDimScore j "query_relevance", jsDimScore j "structure_quality",
      jsDimScore j "authority_signals", jsNumField j "overall_score" with
  | some e, some cw, some qr, some sq, some au, some ov =>
    some
      { extractability := jsClamp e
        citation_worthiness := jsClamp cw
        query_relevance := jsClamp qr
        structure_quality := jsClamp sq
        authority_signals := jsClamp au
        overall_score := jsClamp ov
        improvements := jsArrField j "improvements"
        examples := jsArrField j "examples" }
  | _, _, _, _, _, _ => none

/-- The source expression `LlmService.parseEvaluation`: validates a parsed judge response,
returning `none` (the model treated as failed) whenever the JSON parse
failed, the parse produced `null`, a required dimension is missing or lacks
a numeric `score`, or `overall_score` is missing or non-numeric.  The
`try`/`catch` around the body makes the JS function total; this embedding
is total by construction and never fails. -/
def parseEvaluation (parseOutcome : Option Json) : Option LLMEvaluation :=
  match parseOutcome with
  | none => none
  | some j => if jsIsNull j then none else validateEvaluationJson j

/-- The spec's wording for one required dimension: the dimension object is
present and carries a numeric `score`. -/
def hasNumericScore (j : Json) (dim : String) : Prop :=
  ∃ v q, jsGetField j dim = some v ∧ jsGetField v "score" = some (Json.num q)

/-- The spec's wording for the overall score: present and numeric. -/
def hasNumericOverall (j : Json) : Prop :=
  ∃ q, jsGetField j "overall_score" = some (Json.num q)

/-! ### Score blending (`ScoringService.evaluate`) -/

/-- The per-model results of `LlmService.evaluate` (`LLMResults` of
`shared-types`). -/
structure LLMResults where
  claude : Option LLMEvaluation
  gpt : Option LLMEvaluation
  gemini : Option LLMEvaluation
  consensus_score : Option ℤ

/-- The source expression `{ claude: null, gpt: null, gemini: null, consensus_score: null }`. -/
def emptyLLMResults : LLMResults := ⟨none, none, none, none⟩

/-- The recorded `score_composition`. -/
inductive ScoreComposition where
  | heuristicsOnly
  | blended
deriving DecidableEq

/-- The source expression `options.includeLlm && consensus !== null ? Math.round(h*0.5 + c*0.5) : h`. -/
def blendedOverall (includeLlm : Bool) (heuristicScore : ℤ) (consensus : Option ℤ) : ℤ :=
  match includeLlm, consensus with
  | true, some c => jsRound ((heuristicScore : ℚ) * 0.5 + (c : ℚ) * 0.5)
  | _, _ => heuristicScore

/-- The source expression `options.includeLlm && consensus !== null ? 'blended' : 'heuristics_only'`. -/
def scoreComposition (includeLlm : Bool) (consensus : Option ℤ) : ScoreComposition :=
  match includeLlm, consensus with
  | true, some _ => .blended
  | _, _ => .heuristicsOnly

/-- The source expression `options.includeLlm ? [claude, gpt, gemini].filter(Boolean).length : 0`. -/
def modelsSucceeded (includeLlm : Bool) (llm : LLMResults) : ℕ :=
  if includeLlm then
    [llm.claude.isSome, llm.gpt.isSome, llm.gemini.isSome].count true
  else 0

/-- The score computation of `ScoringService.evaluate`, as a function of the
heuristics overall score and of what `LlmService.evaluate` would return:
when `includeLlm` is off the LLM collaborator is not called and `llmResults`
is the all-null record; the blended overall score and the recorded
composition follow.  (Timing metadata and the passthrough of the heuristics
record are not modelled.) -/
def evaluateScoring (includeLlm : Bool) (heuristicOverall : ℤ)
    (llmOutcome : LLMResults) : ℤ × ScoreComposition × ℕ :=
  let llmResults := if includeLlm then llmOutcome else emptyLLMResults
  let consensus := llmResults.consensus_score
  (blendedOverall includeLlm heuristicOverall consensus,
   scoreComposition includeLlm consensus,
   modelsSucceeded includeLlm llmResults)

/-- The source expression `LlmService.computeConsensus`: mean of the present overall scores,
rounded; `null` when none succeeded. -/
def computeConsensus (scores : List ℤ) : Option ℤ :=
  if scores.length = 0 then none
  else some (jsRound ((scores.sum : ℚ) / (scores.length : ℚ)))

/-! ### Controller bounds (`SimiTrackController.analyzeUrls`) -/

/-- Whether the first list is an initial segment of the second. -/
def matchesFrom : List Char → List Char → Bool
  | [], _ => true
  | _ :: _, [] => false
  | p :: ps, c :: cs => p == c && matchesFrom ps cs

/-- The source expression `url.startsWith('http')`. -/
def startsWithHttp (url : String) : Bool := matchesFrom "http".data url.data

/-- The request validation of the `POST /simitrack/analyze` handler: the
error string of the `HttpException` (all thrown with status 400
`BAD_REQUEST`) or the filtered URL list handed to
`ContentSimilarityService.analyzeUrls`. -/
def validateAnalyzeRequest (urls : List String) : Except String (List String) :=
  if urls.length < 2 then
    .error "At least 2 URLs are required"
  else if urls.length > 50 then
    .error "Maximum 50 URLs per request"
  else
    let validUrls := urls.filter startsWithHttp
    if validUrls.length < 2 then
      .error "At least 2 valid URLs (starting with http) are required"
    else
      .ok validUrls

/-! ### Cosine similarity (`EmbeddingService.cosineSimilarity`)

The JS function computes over binary floating point; the embedding uses
exact real arithmetic, which is the reading under which the spec states
`cosineSimilarity(v,v) ≈ 1` exactly. -/

/-- The source expression `EmbeddingService.cosineSimilarity`: `dot(a,b) / (|a|·|b|)`, with `0`
for an empty vector, a length mismatch, or a zero denominator. -/
noncomputable def cosineSimilarity (a b : List ℝ) : ℝ :=
  if a = [] ∨ b = [] ∨ a.length ≠ b.length then 0
  else
    let dotProduct := (List.zipWith (fun x y => x * y) a b).sum
    let normA := (a.map fun x => x * x).sum
    let normB := (b.map fun x => x * x).sum
    let denominator := Real.sqrt normA * Real.sqrt normB
    if denominator = 0 then 0 else dotProduct / denominator

/-! ### Text metrics library (`utils/text-analysis.util.ts`)

The regex-based tokenizers are embedded as character-list scanners with the
same semantics: `getWords` collects maximal runs of `[a-zA-Z']`,
`splitSentences` splits at whitespace runs preceded by `.`, `!` or `?`, and
the jargon counter counts non-overlapping case-insensitive whole-word
occurrences of the fixed phrase list. -/

/-- A character matched by `[a-zA-Z']`. -/
def isWordChar (c : Char) : Bool := c.isAlpha || c == '\''

/-- Scanner for `text.match(/[a-zA-Z']+/g)`: accumulates the current run
(reversed) and emits completed runs. -/
def wordRunsAux : List Char → List Char → List String
  | [], acc => if acc.isEmpty then [] else [String.mk acc.reverse]
  | c :: cs, acc =>
    if isWordChar c then wordRunsAux cs (c :: acc)
    else if acc.isEmpty then wordRunsAux cs []
    else String.mk acc.reverse :: wordRunsAux cs []

/-- The source expression `getWords`: the maximal `[a-zA-Z']+` runs of the text. -/
def getWords (text : String) : List String := wordRunsAux text.data []

/-- A sentence-ending character (`[.!?]`). -/
def isSentenceEnd (c : Char) : Bool := c == '.' || c == '!' || c == '?'

/-- Whether the accumulated (reversed) segment ends with `[.!?]` — the
lookbehind of `/(?<=[.!?])\s+/`. -/
def accEndsSentence : List Char → Bool
  | p :: _ => isSentenceEnd p
  | [] => false

/-- Scanner for `text.split(/(?<=[.!?])\s+/)`: a whitespace character whose
predecessor is a sentence terminator starts a separator, which swallows the
whole whitespace run. -/
def splitSentencesAux (l : List Char) (acc : List Char) : List (List Char) :=
  match l with
  | [] => [acc.reverse]
  | c :: cs =>
    if c.isWhitespace && accEndsSentence acc then
      acc.reverse :: splitSentencesAux (cs.dropWhile Char.isWhitespace) []
    else
      splitSentencesAux cs (c :: acc)
termination_by l.length
decreasing_by
  · have h := (List.dropWhile_sublist (l := cs) (p := Char.isWhitespace)).length_le
    simp only [List.length_cons]
    omega
  · simp only [List.length_cons]
    omega

/-- The source expression `splitSentences`: splits, trims each piece, and drops empty pieces. -/
def splitSentences (text : String) : List String :=
  if text.trim.isEmpty then []
  else
    ((splitSentencesAux text.data []).map (fun cs => (String.mk cs).trim)).filter
      (fun s => s.length > 0)

/-- A vowel for syllable counting (`[aeiouy]`). -/
def isVowelChar (c : Char) : Bool :=
  c == 'a' || c == 'e' || c == 'i' || c == 'o' || c == 'u' || c == 'y'

/-- Counts maximal vowel runs; the flag records whether the previous
character was a vowel. -/
def vowelGroupCountAux : List Char → Bool → ℕ
  | [], _ => 0
  | c :: cs, prev =>
    if isVowelChar c then (if prev then 0 else 1) + vowelGroupCountAux cs true
    else vowelGroupCountAux cs false

/-- The number of `[aeiouy]+` groups of a character list. -/
def vowelGroupCount (cs : List Char) : ℕ := vowelGroupCountAux cs false

/-- The source expression `countSyllables`: lowercase, keep `[a-z]`, short-circuit at length ≤ 2,
strip one trailing `e`, count vowel groups with a floor of 1. -/
def countSyllables (word : String) : ℕ :=
  let cleaned := word.toLower.data.filter Char.isLower
  if cleaned.length ≤ 2 then 1
  else
    let stripped := if cleaned.getLast? = some 'e' then cleaned.dropLast else cleaned
    max 1 (vowelGroupCount stripped)

/-- The source expression `totalSyllables`: sum of per-word syllable counts. -/
def totalSyllables (text : String) : ℕ :=
  ((getWords text).map countSyllables).sum

/-- The source expression `fleschKincaidReadingEase`: `206.835 − 1.015·(words/sentences) −
84.6·(syllables/words)`, rounded to one decimal and clamped to `[0,100]`;
`0` when there are no sentences or no words. -/
def fleschKincaidReadingEase (text : String) : ℚ :=
  let sentences := splitSentences text
  let words := getWords text
  if sentences.length = 0 ∨ words.length = 0 then 0
  else
    let avgWordsPerSentence : ℚ := (words.length : ℚ) / (sentences.length : ℚ)
    let avgSyllablesPerWord : ℚ := (totalSyllables text : ℚ) / (words.length : ℚ)
    let score := 206.835 - 1.015 * avgWordsPerSentence - 84.6 * avgSyllablesPerWord
    max 0 (min 100 ((jsRound (score * 10) : ℚ) / 10))

/-- The source expression `averageSentenceLength`: words per sentence, rounded to one decimal;
`0` when there are no sentences. -/
def averageSentenceLength (text : String) : ℚ :=
  let sentences := splitSentences text
  let words := getWords text
  if sentences.length = 0 then 0
  else (jsRound ((words.length : ℚ) / (sentences.length : ℚ) * 10) : ℚ) / 10

/-- A character matched by the regex word class `\w` (`[A-Za-z0-9_]`),
which defines the `\b` boundaries of the jargon patterns. -/
def isRegexWordChar (c : Char) : Bool := c.isAlphanum || c == '_'

/-- The source expression `\b` holds before the match position: start of text or a non-word
predecessor. -/
def prevIsBoundary : Option Char → Bool
  | none => true
  | some c => !(isRegexWordChar c)

/-- The source expression `\b` holds after the match: end of text or a non-word successor. -/
def afterIsBoundary : List Char → Bool
  | [] => true
  | c :: _ => !(isRegexWordChar c)

/-- Non-overlapping left-to-right count of a fixed nonempty pattern
`p0 :: ps` with `\b` on both sides, as produced by a global regex scan;
`prev` is the character preceding the current position. -/
def countPhraseMatchesAux (p0 : Char) (ps : List Char) :
    List Char → Option Char → ℕ
  | [], _ => 0
  | c :: cs, prev =>
    if prevIsBoundary prev && matchesFrom (p0 :: ps) (c :: cs)
        && afterIsBoundary (cs.drop ps.length) then
      1 + countPhraseMatchesAux p0 ps (cs.drop ps.length) (some ((p0 :: ps).getLastD p0))
    else
      countPhraseMatchesAux p0 ps cs (some c)
termination_by l => l.length
decreasing_by
  · simp only [List.length_cons, List.length_drop]
    omega
  · simp only [List.length_cons]
    omega

/-- The number of `gi`-flag matches of `\b<phrase>\b` in a text. -/
def countPhraseMatches (phrase text : List Char) : ℕ :=
  match phrase with
  | [] => 0
  | p0 :: ps => countPhraseMatchesAux p0 ps text none

/-- The fixed `JARGON_PATTERNS` list (each pattern is
`\b<phrase>\b` with the `i` flag). -/
def jargonPhrases : List String :=
  ["hereby", "wherein", "thereof", "pursuant",
   "notwithstanding", "aforementioned", "heretofore",
   "in accordance with", "with respect to", "for the purpose of",
   "in lieu of", "in the event that", "subject to",
   "shall be", "may be", "is deemed",
   "utilize", "facilitate", "commence",
   "terminate", "implement", "ascertain",
   "endeavour", "endeavor", "remuneration"]

/-- The source expression `jargonDensity`: total pattern matches per 100 words, rounded to two
decimals; `0` when the text has no words.  Matching is case-insensitive, so
both pattern and text are lowercased. -/
def jargonDensity (text : String) : ℚ :=
  let words := getWords text
  if words.length = 0 then 0
  else
    let lowered := text.toLower.data
    let jargonCount :=
      (jargonPhrases.map (fun p => countPhraseMatches p.toLower.data lowered)).sum
    (jsRound ((jargonCount : ℚ) / (words.length : ℚ) * 100 * 100) : ℚ) / 100

/-! ### The analyzer data model (`shared-types`) -/

/-- The source expression `ActionableItem.priority`. -/
inductive Priority where
  | high
  | medium
  | low
deriving DecidableEq

/-- The source expression `ActionableItem` of `shared-types`. -/
structure ActionableItem where
  priority : Priority
  category : String
  issue : String
  recommendation : String
  code_example : Option String := none
deriving DecidableEq

/-- The source expression `HeuristicScore` of `shared-types`. -/
structure HeuristicScore where
  score : ℤ
  details : List String
  issues : List String
deriving DecidableEq

/-- The source expression `AnalyzerResult` of `shared-types`. -/
structure AnalyzerResult where
  score : HeuristicScore
  actionableItems : List ActionableItem
deriving DecidableEq

/-- An entry of `ParsedPage.headings`. -/
structure Heading where
  level : ℕ
  text : String := ""
deriving DecidableEq

/-- An entry of `ParsedPage.landmarks`. -/
structure Landmark where
  tag : String
  role : Option String := none
deriving DecidableEq

/-- An entry of `ParsedPage.semanticElements`. -/
structure SemanticElementCount where
  tag : String
  count : ℕ
deriving DecidableEq

/-- An entry of `ParsedPage.lists`. -/
structure ListInfo where
  tag : String
  itemCount : ℕ
deriving DecidableEq

/-- An entry of `ParsedPage.tables`. -/
structure TableInfo where
  hasHead : Bool
  hasBody : Bool
  hasScopeHeaders : Bool
deriving DecidableEq

/-- An entry of `ParsedPage.links`. -/
structure LinkInfo where
  href : String
  text : String
  isExternal : Bool
deriving DecidableEq

/-- The source expression `ParsedPage` of `shared-types`: the immutable structured view of a
document consumed by the analyzers.  String maps are association lists. -/
structure ParsedPage where
  html : String := ""
  title : String := ""
  headings : List Heading := []
  landmarks : List Landmark := []
  semanticElements : List SemanticElementCount := []
  divCount : ℕ := 0
  lists : List ListInfo := []
  tables : List TableInfo := []
  jsonLd : List Json := []
  microdata : List String := []
  openGraph : List (String × String) := []
  metaTags : List (String × String) := []
  links : List LinkInfo := []
  paragraphs : List String := []
  sentences : List String := []
  textContent : String := ""
  navTextLength : ℕ := 0
  mainTextLength : ℕ := 0
  totalTextLength : ℕ := 0

/-! ### Content Clarity analyzer (`analyzers/content-clarity.analyzer.ts`) -/

/-- The source expression `analyzeContentClarity`: returns the zero score with one issue and one
high-priority item when the joined paragraph text is shorter than 50
characters; otherwise combines the four weighted sub-scores (readability
30%, sentence length 25%, paragraph distribution 20%, jargon 25%). -/
def analyzeContentClarity (page : ParsedPage) : AnalyzerResult :=
  let fullText := String.intercalate " " page.paragraphs
  if fullText.length < 50 then
    { score :=
        { score := 0
          details := ["Insufficient text content to analyze"]
          issues := ["Page has very little paragraph text"] }
      actionableItems :=
        [{ priority := .high
           category := "Content Clarity"
           issue := "Page has almost no paragraph text content"
           recommendation := "Add substantive paragraph content to improve LLM extractability" }] }
  else
    let fkScore := fleschKincaidReadingEase fullText
    let readabilityScore : ℚ :=
      if 60 ≤ fkScore then 100
      else if 40 ≤ fkScore then 50 + (fkScore - 40) * 2.5
      else if 20 ≤ fkScore then 20 + (fkScore - 20) * 1.5
      else fkScore
    let avgSentLen := averageSentenceLength fullText
    let sentenceLengthScore : ℚ :=
      if 12 ≤ avgSentLen ∧ avgSentLen ≤ 22 then 100
      else if avgSentLen < 12 then 60 + avgSentLen * 3.3
      else max 0 (100 - (avgSentLen - 22) * 4)
    let paraWordCounts := page.paragraphs.map (fun p => (getWords p).length)
    let avgParaLen : ℚ := (paraWordCounts.sum : ℚ) / (paraWordCounts.length : ℚ)
    let longParas := (paraWordCounts.filter (fun c => 150 < c)).length
    let paragraphScore : ℚ :=
      if page.paragraphs.isEmpty then 0
      else
        let base : ℚ :=
          if 30 ≤ avgParaLen ∧ avgParaLen ≤ 120 then 100
          else if avgParaLen < 30 then 60
          else max 20 (100 - (avgParaLen - 120))
        if 0 < longParas then max 0 (base - (longParas : ℚ) * 10) else base
    let jargon := jargonDensity fullText
    let jargonScore : ℚ :=
      if jargon ≤ 0.5 then 100
      else if jargon ≤ 2 then 80 - (jargon - 0.5) * 20
      else max 0 (50 - (jargon - 2) * 16)
    let totalScore := jsRound
      (readabilityScore * 0.30 + sentenceLengthScore * 0.25 +
       paragraphScore * 0.20 + jargonScore * 0.25)
    let details :=
      ["Flesch-Kincaid Reading Ease: " ++ toString fkScore,
       "Average sentence length: " ++ toString avgSentLen ++ " words"]
      ++ (if page.paragraphs.isEmpty then []
          else [toString page.paragraphs.length ++ " paragraphs, avg " ++
                toString (jsRound avgParaLen) ++ " words each"])
      ++ ["Jargon density: " ++ toString jargon ++ " per 100 words"]
    let issues :=
      (if fkScore < 40 then
        ["Low readability score (" ++ toString fkScore ++ ") — content is difficult to read"]
       else [])
      ++ (if 25 < avgSentLen then
        ["Average sentence length is " ++ toString avgSentLen ++ " words — too long"]
       else [])
      ++ (if page.paragraphs.isEmpty then ["No paragraphs found"]
          else if 0 < longParas then
            [toString longParas ++ " paragraph(s) exceed 150 words"]
          else [])
      ++ (if 2 < jargon then
        ["High jargon density: " ++ toString jargon ++ " per 100 words"]
       else [])
    let items :=
      (if fkScore < 40 then
        [{ priority := .high
           category := "Content Clarity"
           issue := "Flesch-Kincaid score of " ++ toString fkScore ++
             " indicates very difficult reading level"
           recommendation := "Simplify sentence structure and use shorter, more common words" :
             ActionableItem }]
       else [])
      ++ (if 25 < avgSentLen then
        [{ priority := .medium
           category := "Content Clarity"
           issue := "Average sentence length of " ++ toString avgSentLen ++
             " words exceeds recommended 20 words"
           recommendation :=
             "Break long sentences into shorter ones for better comprehension and LLM extraction" :
             ActionableItem }]
       else [])
      ++ (if ¬ page.paragraphs.isEmpty ∧ 0 < longParas then
        [{ priority := .low
           category := "Content Clarity"
           issue := toString longParas ++ " very long paragraph(s) found"
           recommendation := "Break paragraphs longer than 150 words into smaller chunks" :
             ActionableItem }]
       else [])
      ++ (if 2 < jargon then
        [{ priority := .medium
           category := "Content Clarity"
           issue := "Jargon density of " ++ toString jargon ++ " per 100 words is high"
           recommendation := "Replace formal/bureaucratic terms with plain language equivalents" :
             ActionableItem }]
       else [])
    { score := { score := clampInt totalScore, details := details, issues := issues }
      actionableItems := items }

/-! ### Semantic HTML analyzer (`semantic-html.analyzer.ts`) -/

/-- Whether consecutive headings skip a level
(`headings[i].level > headings[i-1].level + 1`). -/
def hasLevelSkips (headings : List Heading) : Bool :=
  (headings.zip headings.tail).any (fun p => p.1.level + 1 < p.2.level)

/-- The heading-hierarchy sub-score of `analyzeSemanticHTML` (weight 25%):
`0` with no headings; otherwise 40/0/15 points for exactly-one/zero/multiple
`<h1>`, plus 40 or 10 points for absent or present level skips, plus 20 or
10 points for at least 3 or fewer distinct levels, capped at 100. -/
def headingHierarchyScore (headings : List Heading) : ℤ :=
  if headings.isEmpty then 0
  else
    let h1Count := (headings.filter (fun h => h.level = 1)).length
    let h1Points : ℤ := if h1Count = 1 then 40 else if h1Count = 0 then 0 else 15
    let skipPoints : ℤ := if hasLevelSkips headings then 10 else 40
    let uniqueLevels := (headings.map (fun h => h.level)).dedup.length
    let depthPoints : ℤ := if 3 ≤ uniqueLevels then 20 else 10
    min 100 (h1Points + skipPoints + depthPoints)

/-- The heading-hierarchy sub-score as claimed by the spec's wording read
strictly: the sum of exactly the listed bonuses (+40 exactly one H1, +40 no
skipped level, +20 at least 3 distinct levels), capped at 100, with reduced
H1 credit as the only other paths.  Written from the spec's words, to be
compared with `headingHierarchyScore`. -/
def specHeadingHierarchyScore (headings : List Heading) : ℤ :=
  if headings.isEmpty then 0
  else
    let h1Count := (headings.filter (fun h => h.level = 1)).length
    let h1Points : ℤ := if h1Count = 1 then 40 else if h1Count = 0 then 0 else 15
    let skipPoints : ℤ := if hasLevelSkips headings then 0 else 40
    let uniqueLevels := (headings.map (fun h => h.level)).dedup.length
    let depthPoints : ℤ := if 3 ≤ uniqueLevels then 20 else 0
    min 100 (h1Points + skipPoints + depthPoints)

/-- The landmark tags whose presence is rewarded. -/
def expectedLandmarks : List String := ["nav", "main", "header", "footer"]

/-- The source expression `analyzeSemanticHTML`: heading hierarchy 25%, landmark coverage 25%,
semantic-to-div ratio 20%, list structure 15%, table semantics 15%. -/
def analyzeSemanticHTML (page : ParsedPage) : AnalyzerResult :=
  let headings := page.headings
  let h1Count := (headings.filter (fun h => h.level = 1)).length
  let uniqueLevels := (headings.map (fun h => h.level)).dedup.length
  let headingScore := headingHierarchyScore headings
  let headingDetails :=
    if headings.isEmpty then []
    else
      (if h1Count = 1 then ["Single <h1> found"] else [])
      ++ (if hasLevelSkips headings then []
          else ["Heading hierarchy has no skipped levels"])
      ++ (if 3 ≤ uniqueLevels then [toString uniqueLevels ++ " heading levels used"]
          else [])
  let headingIssues :=
    if headings.isEmpty then ["No headings found on the page"]
    else
      (if h1Count = 1 then []
       else if h1Count = 0 then ["No <h1> element found"]
       else ["Multiple <h1> elements found (" ++ toString h1Count ++ ")"])
      ++ (if hasLevelSkips headings then ["Heading levels are skipped (e.g., h1 → h3)"]
          else [])
  let headingItems : List ActionableItem :=
    if headings.isEmpty then
      [{ priority := .high
         category := "Semantic HTML"
         issue := "Page has no heading elements"
         recommendation :=
           "Add a clear heading hierarchy starting with a single <h1> for the page title"
         code_example := some "<h1>Page Title</h1>\n<h2>Section</h2>\n<h3>Subsection</h3>" }]
    else
      (if h1Count = 1 then []
       else if h1Count = 0 then
        [{ priority := .high
           category := "Semantic HTML"
           issue := "Missing <h1> element"
           recommendation := "Add exactly one <h1> element as the page title" }]
       else
        [{ priority := .medium
           category := "Semantic HTML"
           issue := toString h1Count ++ " <h1> elements found — should be exactly one"
           recommendation := "Use a single <h1> for the main title; demote others to <h2>" }])
      ++ (if hasLevelSkips headings then
        [{ priority := .medium
           category := "Semantic HTML"
           issue := "Heading hierarchy skips levels"
           recommendation := "Ensure headings follow sequential order without skipping levels" }]
       else [])
  let landmarkTags := page.landmarks.map (fun l => l.tag)
  let foundCount := (expectedLandmarks.filter (fun t => t ∈ landmarkTags)).length
  let landmarkScore : ℤ := jsRound ((foundCount : ℚ) / (expectedLandmarks.length : ℚ) * 100)
  let landmarkDetails :=
    if foundCount = expectedLandmarks.length then
      ["All key landmarks present (nav, main, header, footer)"]
    else []
  let missingLandmarks := expectedLandmarks.filter (fun t => ¬ t ∈ landmarkTags)
  let landmarkIssues :=
    if foundCount = expectedLandmarks.length then []
    else ["Missing landmark elements: " ++ String.intercalate ", " missingLandmarks]
  let landmarkItems : List ActionableItem :=
    if foundCount = expectedLandmarks.length then []
    else if "main" ∈ landmarkTags then []
    else
      [{ priority := .high
         category := "Semantic HTML"
         issue := "No <main> landmark found"
         recommendation := "Wrap primary content in a <main> element"
         code_example := some "<main>\n  <!-- primary page content -->\n</main>" }]
  let totalSemantic := (page.semanticElements.map (fun e => e.count)).sum
  let totalContainers := totalSemantic + page.divCount
  let semRatio : ℚ := (totalSemantic : ℚ) / (totalContainers : ℚ)
  let semanticRatioScore : ℤ :=
    if totalContainers = 0 then 50 else min 100 (jsRound (semRatio * 250))
  let ratioDetails :=
    if totalContainers = 0 then []
    else ["Semantic-to-div ratio: " ++ toString (jsRound (semRatio * 100)) ++ "% (" ++
          toString totalSemantic ++ " semantic, " ++ toString page.divCount ++ " divs)"]
  let ratioItems : List ActionableItem :=
    if totalContainers = 0 then []
    else if semRatio < 0.15 then
      [{ priority := .medium
         category := "Semantic HTML"
         issue := "Very low semantic element usage compared to <div>s"
         recommendation :=
           "Replace generic <div> wrappers with semantic elements like <section>, <article>, <aside>" }]
    else []
  let hasDefinitionList := page.lists.any (fun l => l.tag = "dl")
  let hasSubstantialLists := page.lists.any (fun l => 3 ≤ l.itemCount)
  let listScore : ℤ :=
    if page.lists.isEmpty then min 100 30
    else min 100 (60 + (if hasDefinitionList then 20 else 0)
      + (if hasSubstantialLists then 20 else 0))
  let listDetails :=
    if page.lists.isEmpty then []
    else
      (if hasDefinitionList then ["Definition lists (<dl>) used"] else [])
      ++ (if hasSubstantialLists then ["Meaningful list structures found"] else [])
  let tablePoints : TableInfo → ℤ := fun t =>
    (if t.hasHead then 40 else 0) + (if t.hasBody then 30 else 0)
    + (if t.hasScopeHeaders then 30 else 0)
  let goodTables := (page.tables.map tablePoints).sum
  let tableScore : ℤ :=
    if page.tables.isEmpty then 100
    else jsRound ((goodTables : ℚ) / (page.tables.length : ℚ))
  let tableDetails :=
    if page.tables.isEmpty then [] else [toString page.tables.length ++ " table(s) found"]
  let tableItems : List ActionableItem :=
    if page.tables.isEmpty then []
    else if tableScore < 70 then
      [{ priority := .low
         category := "Semantic HTML"
         issue := "Tables missing proper semantic markup"
         recommendation := "Add <thead>, <tbody>, and scope attributes to <th> elements"
         code_example := some
           "<table>\n  <thead><tr><th scope=\"col\">Header</th></tr></thead>\n  <tbody><tr><td>Data</td></tr></tbody>\n</table>" }]
    else []
  let totalScore := jsRound
    ((headingScore : ℚ) * 0.25 + (landmarkScore : ℚ) * 0.25 +
     (semanticRatioScore : ℚ) * 0.20 + (listScore : ℚ) * 0.15 +
     (tableScore : ℚ) * 0.15)
  { score :=
      { score := clampInt totalScore
        details := headingDetails ++ landmarkDetails ++ ratioDetails ++
          listDetails ++ tableDetails
        issues := headingIssues ++ landmarkIssues }
    actionableItems := headingItems ++ landmarkItems ++ ratioItems ++ tableItems }

/-! ### Heuristics aggregator (`HeuristicsService.run`) -/

/-- The source expression `priorityOrder = { high: 0, medium: 1, low: 2 }`. -/
def priorityRank : Priority → ℕ
  | .high => 0
  | .medium => 1
  | .low => 2

/-- The comparator order of `allActions.sort`: ascending priority rank. -/
def actionLE (a b : ActionableItem) : Prop :=
  priorityRank a.priority ≤ priorityRank b.priority

instance : DecidableRel actionLE := fun a b => by
  unfold actionLE; infer_instance

instance : IsTotal ActionableItem actionLE := ⟨fun _ _ => Nat.le_total _ _⟩

instance : IsTrans ActionableItem actionLE := ⟨fun _ _ _ => Nat.le_trans⟩

/-- JS `Array.prototype.sort` is a stable sort; with the rank comparator it
coincides with insertion sort by `actionLE` (a stable sort's output is
determined by the comparator). -/
def sortActionableItems (items : List ActionableItem) : List ActionableItem :=
  List.insertionSort actionLE items

/-- The source expression `HeuristicsResult` of `shared-types`. -/
structure HeuristicsResult where
  semantic_html : HeuristicScore
  structured_data : HeuristicScore
  content_clarity : HeuristicScore
  citation_markers : HeuristicScore
  factual_density : HeuristicScore
  overall : ℤ
deriving DecidableEq

/-- The output of `HeuristicsService.run`. -/
structure HeuristicsOutput where
  result : HeuristicsResult
  actionableItems : List ActionableItem
deriving DecidableEq

/-- The aggregation of `HeuristicsService.run` as a function of the five
analyzer results it collects: the overall score is the rounded mean of the
five scores and the actionable items are the concatenation, stable-sorted by
priority rank. -/
def runHeuristics (semantic structured clarity citations density : AnalyzerResult) :
    HeuristicsOutput :=
  let overall := jsRound
    (((semantic.score.score + structured.score.score + clarity.score.score +
       citations.score.score + density.score.score : ℤ) : ℚ) / 5)
  let allActions := semantic.actionableItems ++ structured.actionableItems ++
    clarity.actionableItems ++ citations.actionableItems ++ density.actionableItems
  { result :=
      { semantic_html := semantic.score
        structured_data := structured.score
        content_clarity := clarity.score
        citation_markers := citations.score
        factual_density := density.score
        overall := overall }
    actionableItems := sortActionableItems allActions }

/-! ## Theorems -/

/-! ### Shared helper lemmas -/

theorem jsRound_nonneg {q : ℚ} (h : 0 ≤ q) : 0 ≤ jsRound q := by
  unfold jsRound
  exact Int.floor_nonneg.mpr (by linarith)

theorem jsRound_le {q : ℚ} {n : ℤ} (h : q ≤ (n : ℚ)) : jsRound q ≤ n := by
  unfold jsRound
  have h2 : q + 1/2 < ((n + 1 : ℤ) : ℚ) := by push_cast; linarith
  exact Int.lt_add_one_iff.mp (Int.floor_lt.mpr h2)

/-! ### C1: ordered first-match rule chain of `classifyRelationships` -/

/-- C1: for every `SimilarityScore`, `classifyRelationships` assigns the
classification obtained by evaluating the spec's six ordered threshold
rules top-to-bottom with the first matching rule winning (totality is
inherent: `classifyOne` is a function into the six-category type); in
particular `body = 0.80`, `title = 0.76`, `intro = 0.70` classifies as
`Definite Duplicate`, not `Near Duplicate`. -/
theorem C1_classify_first_match :
    (∀ s : SimilarityScore,
      (classifyOne s).classification = firstMatchRule specRuleChain s) ∧
    (classifyOne { url_a := "https://a"
                   url_b := "https://b"
                   title_similarity := 0.76
                   intro_similarity := 0.70
                   body_similarity := 0.80
                   full_similarity := 0.5 }).classification =
      SimilarityClassification.definiteDuplicate := by
  constructor
  · intro s
    simp only [classifyOne, specRuleChain, firstMatchRule,
      thresholdDefiniteDuplicateBody, thresholdDefiniteDuplicateTitle,
      thresholdNearDuplicateBody, thresholdNearDuplicateIntro,
      thresholdIntentCollisionTitle, thresholdIntentCollisionBodyMax,
      thresholdPotCannibTitle, thresholdPotCannibBodyMin,
      thresholdPotCannibBodyMax, thresholdTemplateOverlapFull,
      thresholdTemplateOverlapBodyMax, Bool.and_eq_true, decide_eq_true_eq]
    split_ifs <;> simp_all
  · rw [classifyOne, if_pos (by
      constructor <;>
        norm_num [thresholdDefiniteDuplicateBody, thresholdDefiniteDuplicateTitle])]

/-! ### C3: confidence range of the classifier -/

theorem jsRound_intCast (n : ℤ) : jsRound ((n : ℚ)) = n :=
  le_antisymm (jsRound_le (le_refl _)) (Int.le_floor.mpr (by linarith))

/-- C3 counterexample: over the claim's stated input range `[-1, 1]` the
confidence bound fails — at four similarities of `-1` (a legal cosine
value), the `Unique` branch computes `round((1 − (−1))·100) = 200`. -/
theorem C3_confidence_counterexample :
    (classifyOne ⟨"https://a", "https://b", -1, -1, -1, -1⟩).confidence = 200 ∧
    ¬ ((classifyOne ⟨"https://a", "https://b", -1, -1, -1, -1⟩).confidence ≤ 100) ∧
    simsInCosineRange ⟨"https://a", "https://b", -1, -1, -1, -1⟩ := by
  have hc : (classifyOne ⟨"https://a", "https://b", -1, -1, -1, -1⟩).confidence = 200 := by
    rw [classifyOne,
      if_neg (by norm_num [thresholdDefiniteDuplicateBody, thresholdDefiniteDuplicateTitle]),
      if_neg (by norm_num [thresholdNearDuplicateBody, thresholdNearDuplicateIntro]),
      if_neg (by norm_num [thresholdIntentCollisionTitle, thresholdIntentCollisionBodyMax]),
      if_neg (by norm_num [thresholdPotCannibTitle, thresholdPotCannibBodyMin,
        thresholdPotCannibBodyMax]),
      if_neg (by norm_num [thresholdTemplateOverlapFull, thresholdTemplateOverlapBodyMax])]
    show jsRound ((1 - (-1 : ℚ)) * 100) = 200
    rw [show ((1 : ℚ) - (-1)) * 100 = ((200 : ℤ) : ℚ) by norm_num, jsRound_intCast]
  exact ⟨hc, by rw [hc]; norm_num, by norm_num [simsInCosineRange]⟩

/-- C3 amended: for every `SimilarityScore` whose four similarities lie in
the unit interval `[0, 1]` (the invariant the spec's data model states for
`SimilarityScore`), the confidence produced by `classifyRelationships` is an
integer between 0 and 100 inclusive.  For similarities taken from the full
cosine range `[-1, 1]`, the `Unique` branch can exceed 100 (see the
counterexample). -/
theorem C3_confidence_in_range (s : SimilarityScore) (h : simsInUnitInterval s) :
    0 ≤ (classifyOne s).confidence ∧ (classifyOne s).confidence ≤ 100 := by
  obtain ⟨ht0, ht1, hi0, hi1, hb0, hb1, hf0, hf1⟩ := h
  have h100 : ((100 : ℤ) : ℚ) = 100 := by norm_num
  unfold classifyOne
  split_ifs <;>
    exact ⟨jsRound_nonneg (by linarith), jsRound_le (by rw [h100]; linarith)⟩

/-- Witness for C3: the amended bound at the all-zero similarity row. -/
theorem C3_confidence_in_range_witness :
    0 ≤ (classifyOne ⟨"https://a", "https://b", 0, 0, 0, 0⟩).confidence ∧
    (classifyOne ⟨"https://a", "https://b", 0, 0, 0, 0⟩).confidence ≤ 100 :=
  C3_confidence_in_range ⟨"https://a", "https://b", 0, 0, 0, 0⟩
    (by norm_num [simsInUnitInterval])

/-! ### C4: score blending of `ScoringService.evaluate` -/

/-- C4: the final overall score equals the heuristics score `H` when the LLM
path is not requested or the consensus is null, and `round(H·0.5 + C·0.5)`
when requested with consensus `C` present; the recorded composition is
`blended` exactly in the latter case; `H = 80, C = 60, includeLlm = true`
gives 70, and `H = 80, includeLlm = false` gives 80. -/
theorem C4_score_blending :
    (∀ (H : ℤ) (llm : LLMResults),
      (evaluateScoring false H llm).1 = H ∧
      (evaluateScoring false H llm).2.1 = ScoreComposition.heuristicsOnly) ∧
    (∀ (H : ℤ) (cl gp ge : Option LLMEvaluation),
      (evaluateScoring true H ⟨cl, gp, ge, none⟩).1 = H ∧
      (evaluateScoring true H ⟨cl, gp, ge, none⟩).2.1 =
        ScoreComposition.heuristicsOnly) ∧
    (∀ (H C : ℤ) (cl gp ge : Option LLMEvaluation),
      (evaluateScoring true H ⟨cl, gp, ge, some C⟩).1 =
        jsRound ((H : ℚ) * 0.5 + (C : ℚ) * 0.5) ∧
      (evaluateScoring true H ⟨cl, gp, ge, some C⟩).2.1 =
        ScoreComposition.blended) ∧
    (evaluateScoring true 80 ⟨none, none, none, some 60⟩).1 = 70 ∧
    (evaluateScoring false 80 ⟨none, none, none, some 60⟩).1 = 80 := by
  refine ⟨fun H llm => ⟨rfl, rfl⟩, fun H cl gp ge => ⟨rfl, rfl⟩,
    fun H C cl gp ge => ⟨rfl, rfl⟩, ?_, rfl⟩
  show jsRound (((80 : ℤ) : ℚ) * 0.5 + ((60 : ℤ) : ℚ) * 0.5) = 70
  rw [show ((80 : ℤ) : ℚ) * 0.5 + ((60 : ℤ) : ℚ) * 0.5 = ((70 : ℤ) : ℚ) by norm_num,
    jsRound_intCast]

/-! ### C2: intent-collision clusters -/

theorem collectClusters_cluster_urls_ne_nil
    (adj : List (String × List String)) (keys : List String) :
    ∀ (visited : List String) (c : IntentCluster),
      c ∈ collectClusters adj keys visited → c.cluster_urls ≠ [] := by
  induction keys with
  | nil =>
    intro visited c h
    simp [collectClusters] at h
  | cons k ks ih =>
    intro visited c h
    simp only [collectClusters] at h
    split at h
    · exact ih _ _ h
    · split at h
      case isFalse.isTrue hlen =>
        rcases List.mem_cons.mp h with rfl | h2
        · intro hnil
          have hlen0 := congrArg List.length hnil
          simp only [mkIntentCluster, List.length_drop, List.length_nil] at hlen0
          omega
        · exact ih _ _ h2
      case isFalse.isFalse => exact ih _ _ h

theorem bfsVisit_delta (adj : List (String × List String)) :
    ∀ (fuel : ℕ) (queue visited cluster : List String),
      ∃ delta : List String,
        (bfsVisit adj fuel queue visited cluster).1 = visited ++ delta ∧
        (bfsVisit adj fuel queue visited cluster).2 = cluster ++ delta ∧
        delta.Nodup ∧ ∀ x ∈ delta, x ∉ visited := by
  intro fuel
  induction fuel with
  | zero =>
    intro queue visited cluster
    exact ⟨[], by simp [bfsVisit], by simp [bfsVisit], List.nodup_nil, by simp⟩
  | succ n ih =>
    intro queue visited cluster
    match queue with
    | [] =>
      exact ⟨[], by simp [bfsVisit], by simp [bfsVisit], List.nodup_nil, by simp⟩
    | current :: rest =>
      by_cases hv : current ∈ visited
      · have heq : bfsVisit adj (n + 1) (current :: rest) visited cluster =
            bfsVisit adj n rest visited cluster := by
          simp only [bfsVisit]
          rw [if_pos hv]
        rw [heq]
        exact ih rest visited cluster
      · have heq : bfsVisit adj (n + 1) (current :: rest) visited cluster =
            bfsVisit adj n
              (rest ++ (lookupAdj adj current).filter
                (fun c => ¬ c ∈ visited ++ [current]))
              (visited ++ [current]) (cluster ++ [current]) := by
          simp only [bfsVisit]
          rw [if_neg hv]
        rw [heq]
        obtain ⟨d, h1, h2, hnd, hfresh⟩ :=
          ih (rest ++ (lookupAdj adj current).filter
            (fun c => ¬ c ∈ visited ++ [current]))
            (visited ++ [current]) (cluster ++ [current])
        refine ⟨current :: d, ?_, ?_, ?_, ?_⟩
        · rw [h1]; simp
        · rw [h2]; simp
        · refine List.nodup_cons.mpr ⟨?_, hnd⟩
          intro hcd
          exact hfresh current hcd (by simp)
        · intro x hx
          rcases List.mem_cons.mp hx with rfl | hxd
          · exact hv
          · intro hxv
            exact hfresh x hxd (by simp [hxv])

theorem clusterMembers_mkIntentCluster {d : List String} (hd : d ≠ []) :
    clusterMembers (mkIntentCluster d) = d := by
  cases d with
  | nil => exact absurd rfl hd
  | cons d0 dt => rfl

theorem collectClusters_nodup_disjoint (adj : List (String × List String)) :
    ∀ (keys visited : List String),
      (∀ c ∈ collectClusters adj keys visited,
        (clusterMembers c).Nodup ∧ ∀ u ∈ clusterMembers c, u ∉ visited) ∧
      (collectClusters adj keys visited).Pairwise
        (fun c1 c2 => ∀ u ∈ clusterMembers c1, u ∉ clusterMembers c2) := by
  intro keys
  induction keys with
  | nil =>
    intro visited
    constructor <;> simp [collectClusters]
  | cons k ks ih =>
    intro visited
    by_cases hv : k ∈ visited
    · have heq : collectClusters adj (k :: ks) visited =
          collectClusters adj ks visited := by
        simp only [collectClusters]
        rw [if_pos hv]
      rw [heq]
      exact ih visited
    · obtain ⟨d, hd1, hd2, hnd, hfresh⟩ :=
        bfsVisit_delta adj (bfsFuel adj) [k] visited []
      have hd2' : (bfsVisit adj (bfsFuel adj) [k] visited []).2 = d := by
        simpa using hd2
      have heq : collectClusters adj (k :: ks) visited =
          if d.length > 1 then
            mkIntentCluster d :: collectClusters adj ks (visited ++ d)
          else collectClusters adj ks (visited ++ d) := by
        simp only [collectClusters]
        rw [if_neg hv, hd2', hd1]
      rw [heq]
      obtain ⟨ihA, ihP⟩ := ih (visited ++ d)
      have ihA' : ∀ c ∈ collectClusters adj ks (visited ++ d),
          (clusterMembers c).Nodup ∧ ∀ u ∈ clusterMembers c, u ∉ visited ∧ u ∉ d := by
        intro c hc
        obtain ⟨hcn, hcf⟩ := ihA c hc
        refine ⟨hcn, fun u hu => ?_⟩
        have := hcf u hu
        simp only [List.mem_append] at this
        exact ⟨fun hh => this (Or.inl hh), fun hh => this (Or.inr hh)⟩
      by_cases hlen : d.length > 1
      · rw [if_pos hlen]
        have hdne : d ≠ [] := by
          intro hnil
          rw [hnil] at hlen
          simp at hlen
        have hdm := clusterMembers_mkIntentCluster hdne
        constructor
        · intro c hc
          rcases List.mem_cons.mp hc with rfl | hc2
          · rw [hdm]
            exact ⟨hnd, hfresh⟩
          · obtain ⟨hcn, hcf⟩ := ihA' c hc2
            exact ⟨hcn, fun u hu => (hcf u hu).1⟩
        · refine List.pairwise_cons.mpr ⟨?_, ihP⟩
          intro c2 hc2 u hu hu2
          rw [hdm] at hu
          exact (ihA' c2 hc2).2 u hu2 |>.2 hu
      · rw [if_neg hlen]
        refine ⟨fun c hc => ?_, ihP⟩
        obtain ⟨hcn, hcf⟩ := ihA' c hc
        exact ⟨hcn, fun u hu => (hcf u hu).1⟩

/-- C2: `identifyIntentClusters` builds clusters from the Intent Collision
edges by BFS over connected components: every emitted cluster has at least
two members (`primary_url` plus a nonempty `cluster_urls`); no URL is
repeated within a cluster and no URL appears in two clusters (each URL
belongs to exactly one component); only the Intent Collision relationships
influence the result; and on the spec's three-page example — A–B and B–C
Intent Collision, A–C not — the traversal returns exactly one cluster
holding all three URLs, with the BFS start as `primary_url` and the rest in
BFS visitation order. -/
theorem C2_intent_clusters :
    (∀ (rels : List ContentRelationship) (c : IntentCluster),
      c ∈ identifyIntentClusters rels → c.cluster_urls ≠ []) ∧
    (∀ (rels : List ContentRelationship) (c : IntentCluster),
      c ∈ identifyIntentClusters rels → (clusterMembers c).Nodup) ∧
    (∀ rels : List ContentRelationship,
      (identifyIntentClusters rels).Pairwise
        (fun c1 c2 => ∀ u ∈ clusterMembers c1, u ∉ clusterMembers c2)) ∧
    (∀ rels : List ContentRelationship,
      identifyIntentClusters rels =
        identifyIntentClusters (rels.filter
          (fun r => r.classification = SimilarityClassification.intentCollision))) ∧
    identifyIntentClusters
      [⟨"https://a", "https://b", .intentCollision, 70, ⟨0, 0, 0, 0⟩, ""⟩,
       ⟨"https://b", "https://c", .intentCollision, 70, ⟨0, 0, 0, 0⟩, ""⟩,
       ⟨"https://a", "https://c", .unique, 30, ⟨0, 0, 0, 0⟩, ""⟩] =
      [{ primary_url := "https://a"
         cluster_urls := ["https://b", "https://c"]
         reasoning := "3 URLs are competing for similar search intent. Consider consolidating or differentiating." }] := by
  refine ⟨?_, ?_, ?_, ?_, by decide⟩
  · intro rels c h
    simp only [identifyIntentClusters] at h
    split at h
    · simp at h
    · exact collectClusters_cluster_urls_ne_nil _ _ _ _ h
  · intro rels c h
    simp only [identifyIntentClusters] at h
    split at h
    · simp at h
    · exact ((collectClusters_nodup_disjoint _ _ _).1 c h).1
  · intro rels
    simp only [identifyIntentClusters]
    split
    · simp
    · exact (collectClusters_nodup_disjoint _ _ _).2
  · intro rels
    simp only [identifyIntentClusters, List.filter_filter, Bool.and_self]

/-- Witness for C2: the nonemptiness guarantee applied to the cluster the
three-page example produces. -/
theorem C2_intent_clusters_witness :
    ({ primary_url := "https://a"
       cluster_urls := ["https://b", "https://c"]
       reasoning := "3 URLs are competing for similar search intent. Consider consolidating or differentiating." } :
        IntentCluster).cluster_urls ≠ [] :=
  C2_intent_clusters.1
    [⟨"https://a", "https://b", .intentCollision, 70, ⟨0, 0, 0, 0⟩, ""⟩,
     ⟨"https://b", "https://c", .intentCollision, 70, ⟨0, 0, 0, 0⟩, ""⟩,
     ⟨"https://a", "https://c", .unique, 30, ⟨0, 0, 0, 0⟩, ""⟩]
    _ (by decide)

/-! ### C5: LLM response rejection -/

theorem jsFalsy_no_score {v : Json} (hf : jsFalsy v = true) :
    jsGetField v "score" = none := by
  cases v <;> simp_all [jsFalsy, jsGetField]

theorem jsDimScore_eq_none_iff (j : Json) (d : String) :
    jsDimScore j d = none ↔ ¬ hasNumericScore j d := by
  unfold jsDimScore hasNumericScore
  cases hj : jsGetField j d with
  | none => simp [hj]
  | some v =>
    by_cases hf : jsFalsy v
    · simp [hj, hf, jsFalsy_no_score hf]
    · simp only [hj, Bool.not_eq_true] at hf ⊢
      rw [if_neg (by simp [hf])]
      cases hs : jsGetField v "score" with
      | none => simp [hs]
      | some w => cases w <;> simp [hs]

theorem jsNumField_eq_none_iff (j : Json) (k : String) :
    jsNumField j k = none ↔ ¬ ∃ q, jsGetField j k = some (Json.num q) := by
  unfold jsNumField
  cases h : jsGetField j k with
  | none => simp [h]
  | some w => cases w <;> simp [h]

theorem validateEvaluationJson_eq_none_iff (j : Json) :
    validateEvaluationJson j = none ↔
      (jsDimScore j "extractability" = none ∨
       jsDimScore j "citation_worthiness" = none ∨
       jsDimScore j "query_relevance" = none ∨
       jsDimScore j "structure_quality" = none ∨
       jsDimScore j "authority_signals" = none ∨
       jsNumField j "overall_score" = none) := by
  unfold validateEvaluationJson
  cases h1 : jsDimScore j "extractability" <;>
    cases h2 : jsDimScore j "citation_worthiness" <;>
    cases h3 : jsDimScore j "query_relevance" <;>
    cases h4 : jsDimScore j "structure_quality" <;>
    cases h5 : jsDimScore j "authority_signals" <;>
    cases h6 : jsNumField j "overall_score" <;>
    simp

/-- C5: `parseEvaluation` yields `null` (the model treated as failed, never
an exception — the embedding is a total function) exactly when the JSON
parse failed, or a required dimension is missing or lacks a numeric `score`,
or `overall_score` is missing or non-numeric; in particular a response
missing only `structure_quality.score` is rejected entirely. -/
theorem C5_parse_rejection :
    (∀ p : Option Json, parseEvaluation p = none ↔
      (p = none ∨ ∃ j, p = some j ∧
        (¬ (∀ d ∈ requiredDimensions, hasNumericScore j d) ∨
         ¬ hasNumericOverall j))) ∧
    parseEvaluation (some (Json.obj
      [("extractability", Json.obj [("score", Json.num 80), ("notes", Json.str "ok")]),
       ("citation_worthiness", Json.obj [("score", Json.num 75)]),
       ("query_relevance", Json.obj [("score", Json.num 70)]),
       ("structure_quality", Json.obj [("notes", Json.str "no score here")]),
       ("authority_signals", Json.obj [("score", Json.num 65)]),
       ("overall_score", Json.num 72)])) = none := by
  constructor
  · intro p
    cases p with
    | none => simp [parseEvaluation]
    | some j =>
      simp only [Option.some.injEq, reduceCtorEq, false_or, exists_eq_left']
      cases hn : jsIsNull j with
      | true =>
        have hj : j = Json.null := by cases j <;> simp_all [jsIsNull]
        subst hj
        simp [parseEvaluation, jsIsNull, requiredDimensions, hasNumericScore, jsGetField]
        exact Or.inl ⟨"extractability", fun h => absurd rfl h⟩
      | false =>
        have hpe : parseEvaluation (some j) = validateEvaluationJson j := by
          simp [parseEvaluation, hn]
        rw [hpe, validateEvaluationJson_eq_none_iff,
          jsDimScore_eq_none_iff, jsDimScore_eq_none_iff, jsDimScore_eq_none_iff,
          jsDimScore_eq_none_iff, jsDimScore_eq_none_iff, jsNumField_eq_none_iff]
        unfold hasNumericOverall
        simp only [requiredDimensions, List.forall_mem_cons]
        have htriv : ∀ x ∈ ([] : List String), hasNumericScore j x := by simp
        tauto
  · rfl

/-! ### C6: cosine similarity -/

theorem zipWith_mul_self (v : List ℝ) :
    List.zipWith (fun x y => x * y) v v = v.map (fun x => x * x) := by
  induction v with
  | nil => rfl
  | cons a t ih => simp [ih]

theorem sum_map_sq_nonneg (v : List ℝ) : 0 ≤ (v.map fun x => x * x).sum := by
  induction v with
  | nil => simp
  | cons a t ih => simp only [List.map_cons, List.sum_cons]; nlinarith [mul_self_nonneg a]

theorem sum_map_sq_pos {v : List ℝ} {x : ℝ} (hx : x ∈ v) (hx0 : x ≠ 0) :
    0 < (v.map fun x => x * x).sum := by
  induction v with
  | nil => simp at hx
  | cons a t ih =>
    simp only [List.map_cons, List.sum_cons]
    rcases List.mem_cons.mp hx with rfl | hmem
    · have := sum_map_sq_nonneg t
      nlinarith [mul_self_pos.mpr hx0]
    · have := ih hmem
      nlinarith [mul_self_nonneg a]

/-- C6: `cosineSimilarity` is symmetric; it is `1` on any non-zero vector
paired with itself (in exact arithmetic); and it returns `0` for an empty
vector, mismatched lengths, or a zero denominator. -/
theorem C6_cosine_similarity :
    (∀ a b : List ℝ, cosineSimilarity a b = cosineSimilarity b a) ∧
    (∀ v : List ℝ, (∃ x ∈ v, x ≠ 0) → cosineSimilarity v v = 1) ∧
    (∀ b : List ℝ, cosineSimilarity [] b = 0) ∧
    (∀ a b : List ℝ, a.length ≠ b.length → cosineSimilarity a b = 0) ∧
    (∀ a b : List ℝ,
      Real.sqrt ((a.map fun x => x * x).sum) *
        Real.sqrt ((b.map fun x => x * x).sum) = 0 →
      cosineSimilarity a b = 0) := by
  refine ⟨?_, ?_, ?_, ?_, ?_⟩
  · intro a b
    have hg : (a = [] ∨ b = [] ∨ a.length ≠ b.length) ↔
        (b = [] ∨ a = [] ∨ b.length ≠ a.length) := by
      constructor <;> rintro (h | h | h)
      · exact Or.inr (Or.inl h)
      · exact Or.inl h
      · exact Or.inr (Or.inr fun hh => h hh.symm)
      · exact Or.inr (Or.inl h)
      · exact Or.inl h
      · exact Or.inr (Or.inr fun hh => h hh.symm)
    unfold cosineSimilarity
    dsimp only
    rw [List.zipWith_comm_of_comm _ mul_comm a b,
      mul_comm (Real.sqrt ((List.map (fun x => x * x) a).sum))]
    exact if_congr hg rfl rfl
  · rintro v ⟨x, hx, hx0⟩
    have hne : v ≠ [] := by rintro rfl; simp at hx
    unfold cosineSimilarity
    rw [if_neg (by simp [hne])]
    simp only [zipWith_mul_self]
    have hS : 0 < (v.map fun x => x * x).sum := sum_map_sq_pos hx hx0
    have hsq : Real.sqrt ((v.map fun x => x * x).sum) *
        Real.sqrt ((v.map fun x => x * x).sum) = (v.map fun x => x * x).sum :=
      Real.mul_self_sqrt hS.le
    rw [if_neg (by rw [hsq]; exact hS.ne'), hsq]
    exact div_self hS.ne'
  · intro b
    unfold cosineSimilarity
    rw [if_pos (Or.inl rfl)]
  · intro a b h
    unfold cosineSimilarity
    rw [if_pos (Or.inr (Or.inr h))]
  · intro a b h
    unfold cosineSimilarity
    dsimp only
    split_ifs <;> rfl

/-- Witness for C6: the non-zero self-similarity and the length-mismatch
zero, at concrete vectors. -/
theorem C6_cosine_similarity_witness :
    cosineSimilarity [(1 : ℝ)] [(1 : ℝ)] = 1 ∧
    cosineSimilarity [(1 : ℝ)] [1, 2] = 0 :=
  ⟨C6_cosine_similarity.2.1 [1] ⟨1, by simp, one_ne_zero⟩,
   C6_cosine_similarity.2.2.2.1 [1] [1, 2] (by simp)⟩

/-! ### C7: heuristics aggregation -/

theorem orderedInsert_filter_rank (x : ActionableItem) (p : Priority)
    (l : List ActionableItem) :
    (List.orderedInsert actionLE x l).filter (fun a => decide (a.priority = p)) =
      if x.priority = p then
        x :: l.filter (fun a => decide (a.priority = p))
      else l.filter (fun a => decide (a.priority = p)) := by
  induction l with
  | nil =>
    by_cases hx : x.priority = p <;>
      simp [List.orderedInsert, List.filter_cons, hx]
  | cons y ys ih =>
    rw [List.orderedInsert]
    by_cases hle : actionLE x y
    · rw [if_pos hle]
      by_cases hx : x.priority = p <;> simp [List.filter_cons, hx]
    · rw [if_neg hle]
      have hxy : x.priority ≠ y.priority := by
        intro hpq
        exact hle (le_of_eq (congrArg priorityRank hpq))
      by_cases hx : x.priority = p
      · have hy : y.priority ≠ p := fun hyp => hxy (hx.trans hyp.symm)
        simp [List.filter_cons, ih, hx, hy]
      · by_cases hy : y.priority = p <;> simp [List.filter_cons, ih, hx, hy]

theorem insertionSort_filter_rank (p : Priority) (l : List ActionableItem) :
    (List.insertionSort actionLE l).filter (fun a => decide (a.priority = p)) =
      l.filter (fun a => decide (a.priority = p)) := by
  induction l with
  | nil => rfl
  | cons x xs ih =>
    rw [List.insertionSort, orderedInsert_filter_rank]
    by_cases hx : x.priority = p <;> simp [List.filter_cons, hx, ih]

/-- C7: for any five analyzer results, `HeuristicsService.run`'s overall
score is the rounded mean of the five sub-scores, and its actionable-item
list is the concatenation of the five item lists stable-sorted by priority
rank (high 0, medium 1, low 2): the output is sorted by rank, and for each
priority the items of that priority appear exactly as in the concatenation
(stability); sub-scores (80, 60, 90, 70, 50) give overall 70. -/
theorem C7_heuristics_aggregation :
    (∀ r1 r2 r3 r4 r5 : AnalyzerResult,
      (runHeuristics r1 r2 r3 r4 r5).result.overall =
        jsRound (((r1.score.score + r2.score.score + r3.score.score +
          r4.score.score + r5.score.score : ℤ) : ℚ) / 5) ∧
      List.Sorted actionLE (runHeuristics r1 r2 r3 r4 r5).actionableItems ∧
      ∀ p : Priority,
        (runHeuristics r1 r2 r3 r4 r5).actionableItems.filter
            (fun a => decide (a.priority = p)) =
          (r1.actionableItems ++ r2.actionableItems ++ r3.actionableItems ++
            r4.actionableItems ++ r5.actionableItems).filter
            (fun a => decide (a.priority = p))) ∧
    (runHeuristics ⟨⟨80, [], []⟩, []⟩ ⟨⟨60, [], []⟩, []⟩ ⟨⟨90, [], []⟩, []⟩
      ⟨⟨70, [], []⟩, []⟩ ⟨⟨50, [], []⟩, []⟩).result.overall = 70 := by
  constructor
  · intro r1 r2 r3 r4 r5
    exact ⟨rfl, List.sorted_insertionSort actionLE _,
      fun p => insertionSort_filter_rank p _⟩
  · show jsRound (((350 : ℤ) : ℚ) / 5) = 70
    rw [show ((350 : ℤ) : ℚ) / 5 = ((70 : ℤ) : ℚ) by norm_num, jsRound_intCast]

/-! ### C8: the Content Clarity short-text guard -/

/-- C8: for every page whose combined paragraph text is shorter than 50
characters, the Content Clarity analyzer returns score 0 with exactly one
issue and exactly one high-priority actionable item (and, being a total
function, never throws). -/
theorem C8_content_clarity_short_text (page : ParsedPage)
    (h : (String.intercalate " " page.paragraphs).length < 50) :
    (analyzeContentClarity page).score.score = 0 ∧
    (analyzeContentClarity page).score.issues.length = 1 ∧
    (analyzeContentClarity page).actionableItems.length = 1 ∧
    ∀ it ∈ (analyzeContentClarity page).actionableItems,
      it.priority = Priority.high := by
  have he : analyzeContentClarity page =
      ⟨⟨0, ["Insufficient text content to analyze"],
        ["Page has very little paragraph text"]⟩,
       [⟨.high, "Content Clarity", "Page has almost no paragraph text content",
         "Add substantive paragraph content to improve LLM extractability", none⟩]⟩ := by
    unfold analyzeContentClarity
    dsimp only
    rw [if_pos h]
  rw [he]
  refine ⟨rfl, rfl, rfl, ?_⟩
  intro it hit
  simp only [List.mem_singleton] at hit
  subst hit
  rfl

/-- Witness for C8: a page whose single paragraph has exactly 40
characters. -/
theorem C8_content_clarity_short_text_witness :
    (analyzeContentClarity
      { paragraphs := ["Short page text that is forty chars long"] }).score.score = 0 ∧
    (analyzeContentClarity
      { paragraphs := ["Short page text that is forty chars long"] }).score.issues.length = 1 ∧
    (analyzeContentClarity
      { paragraphs := ["Short page text that is forty chars long"] }).actionableItems.length = 1 ∧
    ∀ it ∈ (analyzeContentClarity
      { paragraphs := ["Short page text that is forty chars long"] }).actionableItems,
      it.priority = Priority.high :=
  C8_content_clarity_short_text
    { paragraphs := ["Short page text that is forty chars long"] } (by decide)

/-! ### C9: the heading-hierarchy sub-score -/

/-- C9 counterexample: on a page with one `<h1>`, a skipped level and two
distinct levels, the code scores 40 + 10 + 10 = 60 while the claim's
contributions (+40 one H1, nothing for the skipped level, nothing for fewer
than 3 levels, penalties only on the H1 path) total 40 — the skip and depth
sub-checks have +10 fallback contributions the claim excludes. -/
theorem C9_heading_counterexample :
    headingHierarchyScore [⟨1, "Top"⟩, ⟨3, "Deep"⟩] = 60 ∧
    specHeadingHierarchyScore [⟨1, "Top"⟩, ⟨3, "Deep"⟩] = 40 ∧
    ¬ (headingHierarchyScore [⟨1, "Top"⟩, ⟨3, "Deep"⟩] =
        specHeadingHierarchyScore [⟨1, "Top"⟩, ⟨3, "Deep"⟩]) := by
  decide

/-- C9 amended: for every page with at least one heading, the
heading-hierarchy sub-score is the capped sum of +40 for exactly one H1
(0 for none, +15 for several), +40 for no skipped level (+10 otherwise),
and +20 for at least three distinct levels (+10 otherwise). -/
theorem C9_heading_hierarchy_amended (headings : List Heading)
    (h : headings ≠ []) :
    headingHierarchyScore headings =
      min 100
        ((if (headings.filter (fun hd => hd.level = 1)).length = 1 then 40
          else if (headings.filter (fun hd => hd.level = 1)).length = 0 then 0
          else 15) +
         (if hasLevelSkips headings then 10 else 40) +
         (if 3 ≤ (headings.map (fun hd => hd.level)).dedup.length then 20 else 10)) := by
  unfold headingHierarchyScore
  rw [if_neg (by simpa using h)]

/-- Witness for C9's amended statement: a single `<h1>` scores
`min 100 (40 + 40 + 10) = 90`. -/
theorem C9_heading_hierarchy_amended_witness :
    headingHierarchyScore [⟨1, "Only"⟩] =
      min 100
        ((if (([⟨1, "Only"⟩] : List Heading).filter (fun hd => hd.level = 1)).length = 1
            then 40
          else if (([⟨1, "Only"⟩] : List Heading).filter
              (fun hd => hd.level = 1)).length = 0 then 0
          else 15) +
         (if hasLevelSkips [⟨1, "Only"⟩] then 10 else 40) +
         (if 3 ≤ (([⟨1, "Only"⟩] : List Heading).map
             (fun hd => hd.level)).dedup.length then 20 else 10)) :=
  C9_heading_hierarchy_amended [⟨1, "Only"⟩] (by simp)

/-! ### C10: controller bounds on the analyze request -/

/-- C10: a request is rejected (400) when its URL list has fewer than 2 or
more than 50 entries, or when fewer than 2 entries start with `http` after
filtering; on acceptance, `analyzeUrls` receives between 2 and 50 URLs, all
starting with `http`. -/
theorem C10_analyze_request_bounds :
    (∀ urls validUrls, validateAnalyzeRequest urls = .ok validUrls →
      2 ≤ validUrls.length ∧ validUrls.length ≤ 50 ∧
      ∀ u ∈ validUrls, startsWithHttp u = true) ∧
    (∀ urls : List String, urls.length < 2 →
      ∃ e, validateAnalyzeRequest urls = .error e) ∧
    (∀ urls : List String, 50 < urls.length →
      ∃ e, validateAnalyzeRequest urls = .error e) ∧
    (∀ urls : List String, (urls.filter startsWithHttp).length < 2 →
      ∃ e, validateAnalyzeRequest urls = .error e) := by
  refine ⟨?_, ?_, ?_, ?_⟩
  · intro urls validUrls h
    simp only [validateAnalyzeRequest] at h
    split_ifs at h with h1 h2 h3
    cases h
    have hle : (urls.filter startsWithHttp).length ≤ urls.length :=
      List.length_filter_le _ _
    exact ⟨by omega, by omega, fun u hu => (List.mem_filter.mp hu).2⟩
  · intro urls h
    exact ⟨"At least 2 URLs are required", by
      unfold validateAnalyzeRequest; rw [if_pos h]⟩
  · intro urls h
    exact ⟨"Maximum 50 URLs per request", by
      unfold validateAnalyzeRequest; rw [if_neg (by omega), if_pos (by omega)]⟩
  · intro urls h
    by_cases h1 : urls.length < 2
    · exact ⟨"At least 2 URLs are required", by
        unfold validateAnalyzeRequest; rw [if_pos h1]⟩
    · by_cases h2 : urls.length > 50
      · exact ⟨"Maximum 50 URLs per request", by
          unfold validateAnalyzeRequest; rw [if_neg h1, if_pos h2]⟩
      · exact ⟨"At least 2 valid URLs (starting with http) are required", by
          unfold validateAnalyzeRequest
          rw [if_neg h1, if_neg h2]
          dsimp only
          rw [if_pos h]⟩

/-- Witness for C10: a well-formed two-URL request passes through with both
URLs intact. -/
theorem C10_analyze_request_bounds_witness :
    2 ≤ (["http://a", "http://b"] : List String).length ∧
    (["http://a", "http://b"] : List String).length ≤ 50 ∧
    ∀ u ∈ (["http://a", "http://b"] : List String), startsWithHttp u = true :=
  C10_analyze_request_bounds.1 ["http://a", "http://b"] ["http://a", "http://b"] rfl

end CraAiTools
